import Mathlib

/-!
Shallow embedding of `src/shared/ai-integration/src/ai_integration.cpp`
(classes `xeno::ai::CreditWallet` and `xeno::ai::AIIntegration`).

C++ member functions are modelled as functions from the object state to a
pair of return value and updated state.  C++ `int` is modelled as `Int`
(no argument in this component comes near 32-bit overflow, and the claims
are about the logical arithmetic).  `std::vector` is a `List`,
`std::map<std::string, std::string>` an association list, and the
`std::map<AIProvider, APIConfig>` a record with one `Option` field per
provider (the key type has exactly three values).  File and JSON effects
of `loadConfigFromFile` are abstracted into the `ConfigSource` input type;
everything else is straight-line pure code.
-/

/-- Stand-in for `nlohmann::json` values that this component stores but
never inspects (request parameters, response metadata). -/
inductive JsonValue where
  | abstractVal
deriving DecidableEq, Repr

/-- `CreditWallet::Transaction` (ai_integration.h). -/
structure Transaction where
  id : String
  operation : String
  credits : Int
  timestamp : String
  success : Bool
deriving DecidableEq, Repr

/-- State of a `CreditWallet` object: the fields of `CreditWallet::Impl`. -/
structure CreditWalletState where
  user_token : String
  cached_balance : Int
  transactions : List Transaction
deriving DecidableEq, Repr

/-- `CreditWallet::CreditWallet()`: `Impl` default-constructs
`cached_balance = 0`, then the constructor seeds it with 100 demo credits. -/
def CreditWallet.mk0 : CreditWalletState :=
  { user_token := "", cached_balance := 100, transactions := [] }

/-- `CreditWallet::authenticate`: stores the token, returns
`!user_token.empty()`. -/
def CreditWallet.authenticate (s : CreditWalletState) (user_token : String) :
    Bool × CreditWalletState :=
  (!user_token.isEmpty, { s with user_token := user_token })

/-- `CreditWallet::getBalance`: returns the cached balance. -/
def CreditWallet.getBalance (s : CreditWalletState) : Int :=
  s.cached_balance

/-- `CreditWallet::deductCredits(amount, operation)`. -/
def CreditWallet.deductCredits (s : CreditWalletState) (amount : Int)
    (operation : String) : Bool × CreditWalletState :=
  if s.cached_balance ≥ amount then
    let transaction : Transaction :=
      { id := "tx_" ++ toString (s.transactions.length + 1)
        operation := operation
        credits := -amount
        timestamp := "2024-01-01T00:00:00Z"
        success := true }
    (true, { s with
      cached_balance := s.cached_balance - amount
      transactions := s.transactions ++ [transaction] })
  else
    (false, s)

/-- `CreditWallet::addCredits(amount)`. -/
def CreditWallet.addCredits (s : CreditWalletState) (amount : Int) :
    Bool × CreditWalletState :=
  let transaction : Transaction :=
    { id := "tx_" ++ toString (s.transactions.length + 1)
      operation := "credit_purchase"
      credits := amount
      timestamp := "2024-01-01T00:00:00Z"
      success := true }
  (true, { s with
    cached_balance := s.cached_balance + amount
    transactions := s.transactions ++ [transaction] })

/-- `CreditWallet::getTransactionHistory(limit)`: computes
`count = min(limit, transactions.size())` and pushes the elements at
indices `size - count, ..., size - 1` (no iterations when `count < 0`,
since the loop starts past `size`); that is the final `count.toNat`
elements of the log, i.e. `drop (size - count.toNat)`. -/
def CreditWallet.getTransactionHistory (s : CreditWalletState) (limit : Int) :
    List Transaction :=
  let count : Int := min limit (s.transactions.length : Int)
  s.transactions.drop (s.transactions.length - count.toNat)

/-- `AIIntegration::AIProvider`. -/
inductive AIProvider where
  | XenoCloud
  | OpenRouter
  | Ollama
deriving DecidableEq, Repr

/-- `AIIntegration::APIConfig`. -/
structure APIConfig where
  endpoint : String := ""
  api_key : String := ""
  headers : List (String × String) := []
deriving DecidableEq, Repr

/-- `std::map<AIProvider, APIConfig>`: one optional entry per provider. -/
structure ConfigMap where
  xeno : Option APIConfig := none
  openRouter : Option APIConfig := none
  ollama : Option APIConfig := none
deriving DecidableEq, Repr

/-- Lookup in the provider-configuration map. -/
def ConfigMap.get (m : ConfigMap) : AIProvider → Option APIConfig
  | .XenoCloud => m.xeno
  | .OpenRouter => m.openRouter
  | .Ollama => m.ollama

/-- Upsert into the provider-configuration map (`configs[provider] = config`). -/
def ConfigMap.set (m : ConfigMap) : AIProvider → APIConfig → ConfigMap
  | .XenoCloud, c => { m with xeno := some c }
  | .OpenRouter, c => { m with openRouter := some c }
  | .Ollama, c => { m with ollama := some c }

/-- `AIIntegration::AIRequest`. -/
structure AIRequest where
  prompt : String := ""
  model : String := ""
  parameters : List (String × JsonValue) := []
  operation_type : String := ""
deriving DecidableEq, Repr

/-- `AIIntegration::AIResponse`.  C++ leaves unassigned fields
indeterminate; the embedding uses zero values for them and the theorems
below only mention fields the C++ code actually assigns on the
corresponding path. -/
structure AIResponse where
  success : Bool := false
  content : String := ""
  credits_used : Int := 0
  error_message : String := ""
  metadata : JsonValue := .abstractVal
deriving DecidableEq, Repr

/-- State of an `AIIntegration` object: the fields of `AIIntegration::Impl`. -/
structure AIIntegrationState where
  configs : ConfigMap
  wallet : CreditWalletState
deriving DecidableEq, Repr

/-- `AIIntegration::AIIntegration()`: empty config map, freshly seeded wallet. -/
def AIIntegration.mk0 : AIIntegrationState :=
  { configs := {}, wallet := CreditWallet.mk0 }

/-- `AIIntegration::configure`. -/
def AIIntegration.configure (s : AIIntegrationState) (provider : AIProvider)
    (config : APIConfig) : Bool × AIIntegrationState :=
  (true, { s with configs := s.configs.set provider config })

/-- `AIIntegration::getCreditBalance`. -/
def AIIntegration.getCreditBalance (s : AIIntegrationState) : Int :=
  CreditWallet.getBalance s.wallet

/-- `AIIntegration::deductCredits(amount)`: delegates to the wallet with
operation label "api_call". -/
def AIIntegration.deductCredits (s : AIIntegrationState) (amount : Int) :
    Bool × AIIntegrationState :=
  let r := CreditWallet.deductCredits s.wallet amount "api_call"
  (r.1, { s with wallet := r.2 })

/-- `AIIntegration::validateCredits`: `getCreditBalance() >= required_credits`,
a read-only member (state is threaded unchanged). -/
def AIIntegration.validateCredits (s : AIIntegrationState)
    (required_credits : Int) : Bool × AIIntegrationState :=
  (decide (AIIntegration.getCreditBalance s ≥ required_credits), s)

/-- `AIIntegration::generateImage`: cost 3 on XenoCloud. -/
def AIIntegration.generateImage (s : AIIntegrationState) (request : AIRequest)
    (provider : AIProvider) : AIResponse × AIIntegrationState :=
  if provider = AIProvider.XenoCloud ∧ (AIIntegration.validateCredits s 3).1 = false then
    ({ success := false, error_message := "Insufficient credits" }, s)
  else
    let credits_used : Int := if provider = AIProvider.XenoCloud then 3 else 0
    let response : AIResponse :=
      { success := true
        content := "Generated image data (placeholder)"
        credits_used := credits_used }
    if provider = AIProvider.XenoCloud then
      (response, (AIIntegration.deductCredits s credits_used).2)
    else
      (response, s)

/-- `AIIntegration::processVideo`: cost 5 on XenoCloud. -/
def AIIntegration.processVideo (s : AIIntegrationState) (request : AIRequest)
    (provider : AIProvider) : AIResponse × AIIntegrationState :=
  if provider = AIProvider.XenoCloud ∧ (AIIntegration.validateCredits s 5).1 = false then
    ({ success := false, error_message := "Insufficient credits" }, s)
  else
    let credits_used : Int := if provider = AIProvider.XenoCloud then 5 else 0
    let response : AIResponse :=
      { success := true
        content := "Processed video data (placeholder)"
        credits_used := credits_used }
    if provider = AIProvider.XenoCloud then
      (response, (AIIntegration.deductCredits s credits_used).2)
    else
      (response, s)

/-- `AIIntegration::processAudio`: cost 2 on XenoCloud. -/
def AIIntegration.processAudio (s : AIIntegrationState) (request : AIRequest)
    (provider : AIProvider) : AIResponse × AIIntegrationState :=
  if provider = AIProvider.XenoCloud ∧ (AIIntegration.validateCredits s 2).1 = false then
    ({ success := false, error_message := "Insufficient credits" }, s)
  else
    let credits_used : Int := if provider = AIProvider.XenoCloud then 2 else 0
    let response : AIResponse :=
      { success := true
        content := "Processed audio data (placeholder)"
        credits_used := credits_used }
    if provider = AIProvider.XenoCloud then
      (response, (AIIntegration.deductCredits s credits_used).2)
    else
      (response, s)

/-- `AIIntegration::completeCode`: cost 1 on XenoCloud. -/
def AIIntegration.completeCode (s : AIIntegrationState) (request : AIRequest)
    (provider : AIProvider) : AIResponse × AIIntegrationState :=
  if provider = AIProvider.XenoCloud ∧ (AIIntegration.validateCredits s 1).1 = false then
    ({ success := false, error_message := "Insufficient credits" }, s)
  else
    let credits_used : Int := if provider = AIProvider.XenoCloud then 1 else 0
    let response : AIResponse :=
      { success := true
        content := "Code completion suggestion (placeholder)"
        credits_used := credits_used }
    if provider = AIProvider.XenoCloud then
      (response, (AIIntegration.deductCredits s credits_used).2)
    else
      (response, s)

/-- `AIIntegration::chatCompletion`: cost 1 on XenoCloud. -/
def AIIntegration.chatCompletion (s : AIIntegrationState) (request : AIRequest)
    (provider : AIProvider) : AIResponse × AIIntegrationState :=
  if provider = AIProvider.XenoCloud ∧ (AIIntegration.validateCredits s 1).1 = false then
    ({ success := false, error_message := "Insufficient credits" }, s)
  else
    let credits_used : Int := if provider = AIProvider.XenoCloud then 1 else 0
    let response : AIResponse :=
      { success := true
        content := "Chat response (placeholder)"
        credits_used := credits_used }
    if provider = AIProvider.XenoCloud then
      (response, (AIIntegration.deductCredits s credits_used).2)
    else
      (response, s)

/-- `AIIntegration::makeAPICall`: placeholder response, no state change; the
payload type is abstract because the function never looks at it. -/
def AIIntegration.makeAPICall {α : Type} (s : AIIntegrationState)
    (provider : AIProvider) (endpoint : String) (payload : α) :
    AIResponse × AIIntegrationState :=
  ({ success := true
     content := "API response (placeholder)"
     credits_used := if provider = AIProvider.XenoCloud then 1 else 0 }, s)

/-- `AIIntegration::isProviderAvailable`. -/
def AIIntegration.isProviderAvailable (s : AIIntegrationState)
    (provider : AIProvider) : Bool :=
  (s.configs.get provider).isSome

/-- `AIIntegration::getProviderStatus`. -/
def AIIntegration.getProviderStatus (s : AIIntegrationState)
    (provider : AIProvider) : String :=
  if AIIntegration.isProviderAvailable s provider then "Available"
  else "Not configured"

/-- Outcome of reading one provider section of the JSON config file:
the section key is absent (skipped by `contains`), present but a read of a
field this code accesses throws (conversion/type error), or the accessed
fields convert to strings. -/
inductive SectionParse where
  | absent
  | malformed
  | ok (endpoint : String) (api_key : String)
deriving DecidableEq, Repr

/-- The three provider sections of a successfully parsed config document.
For the `ollama` section only the endpoint is read, so its `api_key`
component is ignored. -/
structure ConfigFile where
  xeno_ai : SectionParse
  open_router : SectionParse
  ollama : SectionParse
deriving DecidableEq, Repr

/-- Abstraction of the file and stream effects of `loadConfigFromFile`:
the file fails to open, the top-level `file >> config` parse throws, or a
document is obtained. -/
inductive ConfigSource where
  | unopenable
  | parseError
  | parsed (config : ConfigFile)
deriving DecidableEq, Repr

/-- One bearer-key provider section inside `loadConfigFromFile`:
`absent` is skipped, `malformed` models a thrown conversion error (the
`error` value carries the object state at the throw point), `ok` builds
the `APIConfig` with the derived Authorization header and configures. -/
def AIIntegration.stepKeyedSection (s : AIIntegrationState)
    (provider : AIProvider) (sec : SectionParse) :
    Except AIIntegrationState AIIntegrationState :=
  match sec with
  | .absent => .ok s
  | .malformed => .error s
  | .ok endpoint api_key =>
      .ok (AIIntegration.configure s provider
        { endpoint := endpoint
          api_key := api_key
          headers := [("Authorization", "Bearer " ++ api_key)] }).2

/-- The `ollama` section inside `loadConfigFromFile`: only the endpoint is
read; the config keeps default (empty) key and headers. -/
def AIIntegration.stepOllamaSection (s : AIIntegrationState)
    (sec : SectionParse) : Except AIIntegrationState AIIntegrationState :=
  match sec with
  | .absent => .ok s
  | .malformed => .error s
  | .ok endpoint _ =>
      .ok (AIIntegration.configure s AIProvider.Ollama { endpoint := endpoint }).2

/-- `AIIntegration::loadConfigFromFile`: sections are processed in order
xeno_ai, open_router, ollama inside one try block; any throw is caught and
turned into `false`, keeping whatever was configured before the throw. -/
def AIIntegration.loadConfigFromFile (s : AIIntegrationState)
    (src : ConfigSource) : Bool × AIIntegrationState :=
  match src with
  | .unopenable => (false, s)
  | .parseError => (false, s)
  | .parsed config =>
    match AIIntegration.stepKeyedSection s AIProvider.XenoCloud config.xeno_ai with
    | .error sErr => (false, sErr)
    | .ok s1 =>
      match AIIntegration.stepKeyedSection s1 AIProvider.OpenRouter config.open_router with
      | .error sErr => (false, sErr)
      | .ok s2 =>
        match AIIntegration.stepOllamaSection s2 config.ollama with
        | .error sErr => (false, sErr)
        | .ok s3 => (true, s3)

/-- A call made against a `CreditWallet`: the two balance-changing
member functions with their arguments. -/
inductive WalletOp where
  | deduct (amount : Int) (operation : String)
  | add (amount : Int)
deriving DecidableEq, Repr

/-- State after one wallet call. -/
def WalletOp.apply (s : CreditWalletState) (op : WalletOp) : CreditWalletState :=
  match op with
  | .deduct amount operation => (CreditWallet.deductCredits s amount operation).2
  | .add amount => (CreditWallet.addCredits s amount).2

/-- State after a sequence of wallet calls. -/
def CreditWallet.runOps (s : CreditWalletState) (ops : List WalletOp) :
    CreditWalletState :=
  ops.foldl WalletOp.apply s

/-- Sum of the credit deltas recorded in the transaction log. -/
def CreditWallet.txSum (s : CreditWalletState) : Int :=
  (s.transactions.map Transaction.credits).sum

/-- The delta a call contributes as applied in state `s`: a deduction that
returns false contributes zero. -/
def WalletOp.appliedDelta (s : CreditWalletState) (op : WalletOp) : Int :=
  match op with
  | .deduct amount operation =>
      if (CreditWallet.deductCredits s amount operation).1 then -amount else 0
  | .add amount => amount

/-- Sum of the applied deltas of a call sequence starting in state `s`. -/
def CreditWallet.appliedSum : CreditWalletState → List WalletOp → Int
  | _, [] => 0
  | s, op :: ops =>
      WalletOp.appliedDelta s op + CreditWallet.appliedSum (WalletOp.apply s op) ops

/-- A call is benign for non-negativity when it is any deduction or a
top-up of a nonnegative amount. -/
def WalletOp.nonNegAdd : WalletOp → Bool
  | .deduct _ _ => true
  | .add amount => decide (0 ≤ amount)

/-! ## Helper lemmas about wallet call sequences -/

/-- One wallet call changes the balance by exactly its applied delta. -/
theorem WalletOp.balance_apply (s : CreditWalletState) (op : WalletOp) :
    (WalletOp.apply s op).cached_balance
      = s.cached_balance + WalletOp.appliedDelta s op := by
  cases op with
  | deduct amount operation =>
      by_cases h : s.cached_balance ≥ amount <;>
        simp [WalletOp.apply, WalletOp.appliedDelta, CreditWallet.deductCredits, h] <;>
        omega
  | add amount =>
      simp [WalletOp.apply, WalletOp.appliedDelta, CreditWallet.addCredits]

/-- One wallet call changes the logged-delta sum by exactly its applied delta. -/
theorem WalletOp.txSum_apply (s : CreditWalletState) (op : WalletOp) :
    CreditWallet.txSum (WalletOp.apply s op)
      = CreditWallet.txSum s + WalletOp.appliedDelta s op := by
  cases op with
  | deduct amount operation =>
      by_cases h : s.cached_balance ≥ amount <;>
        simp [WalletOp.apply, WalletOp.appliedDelta, CreditWallet.deductCredits,
          CreditWallet.txSum, h]
  | add amount =>
      simp [WalletOp.apply, WalletOp.appliedDelta, CreditWallet.addCredits,
        CreditWallet.txSum]

/-- Balance after a call sequence: start balance plus applied deltas. -/
theorem CreditWallet.balance_runOps (ops : List WalletOp) :
    ∀ s : CreditWalletState,
      (CreditWallet.runOps s ops).cached_balance
        = s.cached_balance + CreditWallet.appliedSum s ops := by
  induction ops with
  | nil => intro s; simp [CreditWallet.runOps, CreditWallet.appliedSum]
  | cons op ops ih =>
      intro s
      have h1 : CreditWallet.runOps s (op :: ops)
          = CreditWallet.runOps (WalletOp.apply s op) ops := rfl
      rw [h1, ih (WalletOp.apply s op), WalletOp.balance_apply]
      simp [CreditWallet.appliedSum]
      omega

/-- Logged-delta sum after a call sequence: start sum plus applied deltas. -/
theorem CreditWallet.txSum_runOps (ops : List WalletOp) :
    ∀ s : CreditWalletState,
      CreditWallet.txSum (CreditWallet.runOps s ops)
        = CreditWallet.txSum s + CreditWallet.appliedSum s ops := by
  induction ops with
  | nil => intro s; simp [CreditWallet.runOps, CreditWallet.appliedSum]
  | cons op ops ih =>
      intro s
      have h1 : CreditWallet.runOps s (op :: ops)
          = CreditWallet.runOps (WalletOp.apply s op) ops := rfl
      rw [h1, ih (WalletOp.apply s op), WalletOp.txSum_apply]
      simp [CreditWallet.appliedSum]
      omega

/-- Transaction identifiers generated by the wallet are never empty. -/
theorem txId_ne_empty (x : String) : ("tx_" ++ x) ≠ "" := by
  intro h
  have h2 := congrArg String.length h
  simp [String.length_append] at h2
  exact absurd h2.1 (by decide)

/-- Every transaction in a wallet state reached from the fresh wallet by a
sequence of calls carries a non-empty identifier. -/
theorem CreditWallet.ids_ne_empty_runOps (ops : List WalletOp) :
    ∀ s : CreditWalletState,
      (∀ t ∈ s.transactions, t.id ≠ "") →
      ∀ t ∈ (CreditWallet.runOps s ops).transactions, t.id ≠ "" := by
  induction ops with
  | nil => intro s hs; simpa [CreditWallet.runOps] using hs
  | cons op ops ih =>
      intro s hs
      have h1 : CreditWallet.runOps s (op :: ops)
          = CreditWallet.runOps (WalletOp.apply s op) ops := rfl
      rw [h1]
      refine ih (WalletOp.apply s op) ?_
      intro t ht
      cases op with
      | deduct amount operation =>
          by_cases h : s.cached_balance ≥ amount
          · simp [WalletOp.apply, CreditWallet.deductCredits, h] at ht
            rcases ht with ht | ht
            · exact hs t ht
            · rw [ht]; exact txId_ne_empty _
          · simp [WalletOp.apply, CreditWallet.deductCredits, h] at ht
            exact hs t ht
      | add amount =>
          simp [WalletOp.apply, CreditWallet.addCredits] at ht
          rcases ht with ht | ht
          · exact hs t ht
          · rw [ht]; exact txId_ne_empty _

/-- Claim C1: for every finite sequence of deductCredits/addCredits calls on
a CreditWallet starting from its initial seed balance of 100, getBalance
equals the seed plus the sum of the deltas of all applied operations (a
failed deduction contributes zero), and equivalently the seed plus the sum
of all credit deltas in the transaction log. -/
theorem creditWallet_ledger_invariant (ops : List WalletOp) :
    CreditWallet.getBalance (CreditWallet.runOps CreditWallet.mk0 ops)
        = 100 + CreditWallet.appliedSum CreditWallet.mk0 ops
  ∧ CreditWallet.getBalance (CreditWallet.runOps CreditWallet.mk0 ops)
        = 100 + CreditWallet.txSum (CreditWallet.runOps CreditWallet.mk0 ops) := by
  have hb := CreditWallet.balance_runOps ops CreditWallet.mk0
  have ht := CreditWallet.txSum_runOps ops CreditWallet.mk0
  have hmk : CreditWallet.mk0.cached_balance = 100 := rfl
  have hmkt : CreditWallet.txSum CreditWallet.mk0 = 0 := rfl
  constructor
  · rw [CreditWallet.getBalance, hb, hmk]
  · rw [CreditWallet.getBalance, hb, hmk, ht, hmkt]
    omega

/-- Witness for C1 at a concrete call sequence. -/
theorem creditWallet_ledger_invariant_witness :
    CreditWallet.getBalance
        (CreditWallet.runOps CreditWallet.mk0 [WalletOp.deduct 5 "x", WalletOp.add 10])
      = 100 + CreditWallet.appliedSum CreditWallet.mk0
          [WalletOp.deduct 5 "x", WalletOp.add 10] :=
  (creditWallet_ledger_invariant [WalletOp.deduct 5 "x", WalletOp.add 10]).1

/-- Claim C2: deductCredits succeeds exactly when the balance covers the
amount; on success it decrements the balance by the amount and appends one
transaction with delta `-amount` and `success = true`; on failure it
returns false and leaves the state untouched. -/
theorem deductCredits_spec (s : CreditWalletState) (amount : Int)
    (operation : String) :
    (CreditWallet.getBalance s ≥ amount →
      CreditWallet.deductCredits s amount operation =
        (true, { s with
          cached_balance := s.cached_balance - amount
          transactions := s.transactions ++
            [{ id := "tx_" ++ toString (s.transactions.length + 1)
               operation := operation
               credits := -amount
               timestamp := "2024-01-01T00:00:00Z"
               success := true }] }))
  ∧ (¬ CreditWallet.getBalance s ≥ amount →
      CreditWallet.deductCredits s amount operation = (false, s)) := by
  constructor <;> intro h <;>
    simp [CreditWallet.deductCredits, CreditWallet.getBalance] at h ⊢ <;>
    simp [h]

/-- Witness for C2: a covered deduction succeeds, an uncovered one fails. -/
theorem deductCredits_spec_witness :
    CreditWallet.deductCredits CreditWallet.mk0 1000 "y" = (false, CreditWallet.mk0)
  ∧ (CreditWallet.deductCredits CreditWallet.mk0 5 "x").1 = true := by
  constructor
  · exact (deductCredits_spec CreditWallet.mk0 1000 "y").2 (by decide)
  · rw [(deductCredits_spec CreditWallet.mk0 5 "x").1 (by decide)]

/-- Claim C4 (code bug): the spec and the unit test
(test_shared_libraries.cpp, `Authentication`) expect `authenticate` to
return true for every token including the empty one, but the code returns
`!user_token.empty()`, hence false on the empty token. -/
theorem authenticate_empty_token_returns_false :
    CreditWallet.authenticate CreditWallet.mk0 "" = (false, CreditWallet.mk0) := by
  decide

/-- Counterexample for C8: a single negative top-up drives the seeded
balance below zero, so the non-negativity invariant fails as claimed for
arbitrary integer arguments. -/
theorem addCredits_negative_counterexample :
    CreditWallet.getBalance (CreditWallet.addCredits CreditWallet.mk0 (-200)).2 < 0 := by
  decide

/-- Claim C8 (amended): starting from the seed, every wallet operation
preserves a non-negative balance provided addCredits is only given
nonnegative amounts (deductCredits preserves non-negativity for every
integer amount, and authenticate never touches the balance). -/
theorem wallet_balance_nonneg :
    (∀ ops : List WalletOp, (∀ op ∈ ops, op.nonNegAdd = true) →
        0 ≤ CreditWallet.getBalance (CreditWallet.runOps CreditWallet.mk0 ops))
  ∧ (∀ (s : CreditWalletState) (token : String),
        (CreditWallet.authenticate s token).2.cached_balance = s.cached_balance) := by
  constructor
  · have key : ∀ (ops : List WalletOp) (s : CreditWalletState),
        0 ≤ s.cached_balance → (∀ op ∈ ops, op.nonNegAdd = true) →
        0 ≤ (CreditWallet.runOps s ops).cached_balance := by
      intro ops
      induction ops with
      | nil => intro s hs _; simpa [CreditWallet.runOps] using hs
      | cons op ops ih =>
          intro s hs hops
          have h1 : CreditWallet.runOps s (op :: ops)
              = CreditWallet.runOps (WalletOp.apply s op) ops := rfl
          rw [h1]
          refine ih (WalletOp.apply s op) ?_ (fun o ho => hops o (List.mem_cons_of_mem _ ho))
          have hop := hops op (List.mem_cons_self _ _)
          cases op with
          | deduct amount operation =>
              by_cases h : s.cached_balance ≥ amount <;>
                simp [WalletOp.apply, CreditWallet.deductCredits, h] <;> omega
          | add amount =>
              simp [WalletOp.nonNegAdd] at hop
              simp [WalletOp.apply, CreditWallet.addCredits]
              omega
    intro ops hops
    exact key ops CreditWallet.mk0 (by decide) hops
  · intro s token
    rfl

/-- Witness for C8 at a concrete benign call sequence. -/
theorem wallet_balance_nonneg_witness :
    0 ≤ CreditWallet.getBalance
        (CreditWallet.runOps CreditWallet.mk0 [WalletOp.deduct 30 "x", WalletOp.add 5]) :=
  wallet_balance_nonneg.1 [WalletOp.deduct 30 "x", WalletOp.add 5] (by decide)

/-- Claim C5: validateCredits answers `n <= getCreditBalance()` and leaves
the whole object state (balance and transaction log included) unchanged. -/
theorem validateCredits_spec (s : AIIntegrationState) (n : Int) :
    ((AIIntegration.validateCredits s n).1 = true ↔ n ≤ AIIntegration.getCreditBalance s)
  ∧ (AIIntegration.validateCredits s n).2 = s := by
  refine ⟨?_, rfl⟩
  simp [AIIntegration.validateCredits, ge_iff_le]

/-- Witness for C5 on the fresh object. -/
theorem validateCredits_spec_witness :
    (AIIntegration.validateCredits AIIntegration.mk0 50).1 = true :=
  (validateCredits_spec AIIntegration.mk0 50).1.mpr (by decide)

/-- Counterexample for C6: after `deductCredits(0, "")` the history window
of size one holds a transaction whose operation label is empty and whose
credit delta is zero, contradicting the claimed non-empty label and
nonzero delta; and with one logged entry, `getTransactionHistory(-1)`
returns 0 entries, not `min(-1, 1) = -1`. -/
theorem getTransactionHistory_counterexample :
    CreditWallet.getTransactionHistory (CreditWallet.deductCredits CreditWallet.mk0 0 "").2 1
      = [{ id := "tx_1", operation := "", credits := 0,
           timestamp := "2024-01-01T00:00:00Z", success := true }]
  ∧ CreditWallet.getTransactionHistory
      (CreditWallet.deductCredits CreditWallet.mk0 0 "").2 (-1) = [] := by
  decide

/-- Claim C6 (amended): for every integer k and every wallet state built by
wallet calls from the fresh wallet, getTransactionHistory(k) returns
exactly min(max(k,0), total_transactions) entries — the most recent ones,
in chronological order (a suffix of the log) — and each returned entry has
a non-empty id; the operation label and delta of an entry are exactly
those recorded by the call that created it, so they can be empty or zero
when such arguments are passed. -/
theorem getTransactionHistory_spec (ops : List WalletOp) (k : Int) :
    ((CreditWallet.getTransactionHistory (CreditWallet.runOps CreditWallet.mk0 ops) k).length : Int)
        = min (max k 0) (((CreditWallet.runOps CreditWallet.mk0 ops).transactions.length : Int))
  ∧ List.IsSuffix
      (CreditWallet.getTransactionHistory (CreditWallet.runOps CreditWallet.mk0 ops) k)
      (CreditWallet.runOps CreditWallet.mk0 ops).transactions
  ∧ ∀ t ∈ CreditWallet.getTransactionHistory (CreditWallet.runOps CreditWallet.mk0 ops) k,
      t.id ≠ "" := by
  refine ⟨?_, ?_, ?_⟩
  · simp only [CreditWallet.getTransactionHistory, List.length_drop]
    omega
  · exact List.drop_suffix _ _
  · intro t ht
    have hmem : t ∈ (CreditWallet.runOps CreditWallet.mk0 ops).transactions :=
      (List.drop_suffix _ _).subset ht
    exact CreditWallet.ids_ne_empty_runOps ops CreditWallet.mk0 (by simp [CreditWallet.mk0]) t hmem

/-- Witness for C6 at a concrete state and window size. -/
theorem getTransactionHistory_spec_witness :
    ((CreditWallet.getTransactionHistory
        (CreditWallet.runOps CreditWallet.mk0 [WalletOp.add 5]) 3).length : Int)
      = min (max (3 : Int) 0)
          (((CreditWallet.runOps CreditWallet.mk0 [WalletOp.add 5]).transactions.length : Int)) :=
  (getTransactionHistory_spec [WalletOp.add 5] 3).1

/-- Behaviour of a credit-metered modality operation on the XenoCloud
provider at a fixed cost: below the cost it fails with the fixed message
and changes nothing; at or above it, it succeeds, reports the cost as
credits_used, deducts exactly the cost and logs one "api_call"
transaction with delta `-cost`. -/
def meteredSpec
    (f : AIIntegrationState → AIRequest → AIProvider → AIResponse × AIIntegrationState)
    (cost : Int) : Prop :=
  ∀ (s : AIIntegrationState) (request : AIRequest),
    (AIIntegration.getCreditBalance s < cost →
        (f s request AIProvider.XenoCloud).1.success = false
      ∧ (f s request AIProvider.XenoCloud).1.error_message = "Insufficient credits"
      ∧ (f s request AIProvider.XenoCloud).2 = s)
  ∧ (cost ≤ AIIntegration.getCreditBalance s →
        (f s request AIProvider.XenoCloud).1.success = true
      ∧ (f s request AIProvider.XenoCloud).1.credits_used = cost
      ∧ AIIntegration.getCreditBalance (f s request AIProvider.XenoCloud).2
          = AIIntegration.getCreditBalance s - cost
      ∧ (f s request AIProvider.XenoCloud).2.wallet.transactions
          = s.wallet.transactions ++
            [{ id := "tx_" ++ toString (s.wallet.transactions.length + 1)
               operation := "api_call"
               credits := -cost
               timestamp := "2024-01-01T00:00:00Z"
               success := true }])

/-- generateImage meets the metered contract at cost 3. -/
theorem generateImage_metered : meteredSpec AIIntegration.generateImage 3 := by
  intro s request
  constructor
  · intro h
    have hb : ¬ (s.wallet.cached_balance ≥ 3) := by
      simpa [AIIntegration.getCreditBalance, CreditWallet.getBalance] using h
    simp [AIIntegration.generateImage, AIIntegration.validateCredits,
      AIIntegration.getCreditBalance, CreditWallet.getBalance, hb]
  · intro h
    have hb : s.wallet.cached_balance ≥ 3 := by
      simpa [AIIntegration.getCreditBalance, CreditWallet.getBalance] using h
    simp [AIIntegration.generateImage, AIIntegration.validateCredits,
      AIIntegration.getCreditBalance, CreditWallet.getBalance, hb,
      AIIntegration.deductCredits, CreditWallet.deductCredits]

/-- processVideo meets the metered contract at cost 5. -/
theorem processVideo_metered : meteredSpec AIIntegration.processVideo 5 := by
  intro s request
  constructor
  · intro h
    have hb : ¬ (s.wallet.cached_balance ≥ 5) := by
      simpa [AIIntegration.getCreditBalance, CreditWallet.getBalance] using h
    simp [AIIntegration.processVideo, AIIntegration.validateCredits,
      AIIntegration.getCreditBalance, CreditWallet.getBalance, hb]
  · intro h
    have hb : s.wallet.cached_balance ≥ 5 := by
      simpa [AIIntegration.getCreditBalance, CreditWallet.getBalance] using h
    simp [AIIntegration.processVideo, AIIntegration.validateCredits,
      AIIntegration.getCreditBalance, CreditWallet.getBalance, hb,
      AIIntegration.deductCredits, CreditWallet.deductCredits]

/-- processAudio meets the metered contract at cost 2. -/
theorem processAudio_metered : meteredSpec AIIntegration.processAudio 2 := by
  intro s request
  constructor
  · intro h
    have hb : ¬ (s.wallet.cached_balance ≥ 2) := by
      simpa [AIIntegration.getCreditBalance, CreditWallet.getBalance] using h
    simp [AIIntegration.processAudio, AIIntegration.validateCredits,
      AIIntegration.getCreditBalance, CreditWallet.getBalance, hb]
  · intro h
    have hb : s.wallet.cached_balance ≥ 2 := by
      simpa [AIIntegration.getCreditBalance, CreditWallet.getBalance] using h
    simp [AIIntegration.processAudio, AIIntegration.validateCredits,
      AIIntegration.getCreditBalance, CreditWallet.getBalance, hb,
      AIIntegration.deductCredits, CreditWallet.deductCredits]

/-- completeCode meets the metered contract at cost 1. -/
theorem completeCode_metered : meteredSpec AIIntegration.completeCode 1 := by
  intro s request
  constructor
  · intro h
    have hb : ¬ (s.wallet.cached_balance ≥ 1) := by
      simpa [AIIntegration.getCreditBalance, CreditWallet.getBalance] using h
    simp [AIIntegration.completeCode, AIIntegration.validateCredits,
      AIIntegration.getCreditBalance, CreditWallet.getBalance, hb]
  · intro h
    have hb : s.wallet.cached_balance ≥ 1 := by
      simpa [AIIntegration.getCreditBalance, CreditWallet.getBalance] using h
    simp [AIIntegration.completeCode, AIIntegration.validateCredits,
      AIIntegration.getCreditBalance, CreditWallet.getBalance, hb,
      AIIntegration.deductCredits, CreditWallet.deductCredits]

/-- chatCompletion meets the metered contract at cost 1. -/
theorem chatCompletion_metered : meteredSpec AIIntegration.chatCompletion 1 := by
  intro s request
  constructor
  · intro h
    have hb : ¬ (s.wallet.cached_balance ≥ 1) := by
      simpa [AIIntegration.getCreditBalance, CreditWallet.getBalance] using h
    simp [AIIntegration.chatCompletion, AIIntegration.validateCredits,
      AIIntegration.getCreditBalance, CreditWallet.getBalance, hb]
  · intro h
    have hb : s.wallet.cached_balance ≥ 1 := by
      simpa [AIIntegration.getCreditBalance, CreditWallet.getBalance] using h
    simp [AIIntegration.chatCompletion, AIIntegration.validateCredits,
      AIIntegration.getCreditBalance, CreditWallet.getBalance, hb,
      AIIntegration.deductCredits, CreditWallet.deductCredits]

/-- Claim C3: each modality operation on the metered provider enforces its
fixed cost (image 3, video 5, audio 2, code 1, chat 1): below the cost it
returns success=false with "Insufficient credits" and deducts nothing; at
or above it, it deducts exactly the cost and reports it as credits_used. -/
theorem metered_ops_spec :
    meteredSpec AIIntegration.generateImage 3
  ∧ meteredSpec AIIntegration.processVideo 5
  ∧ meteredSpec AIIntegration.processAudio 2
  ∧ meteredSpec AIIntegration.completeCode 1
  ∧ meteredSpec AIIntegration.chatCompletion 1 :=
  ⟨generateImage_metered, processVideo_metered, processAudio_metered,
   completeCode_metered, chatCompletion_metered⟩

/-- Witness for C3: completeCode on XenoCloud with balance 0 fails with the
fixed message and leaves the state unchanged. -/
theorem metered_ops_spec_witness :
    (AIIntegration.completeCode
        { configs := {},
          wallet := { user_token := "", cached_balance := 0, transactions := [] } }
        {} AIProvider.XenoCloud).1.success = false
  ∧ (AIIntegration.completeCode
        { configs := {},
          wallet := { user_token := "", cached_balance := 0, transactions := [] } }
        {} AIProvider.XenoCloud).1.error_message = "Insufficient credits"
  ∧ (AIIntegration.completeCode
        { configs := {},
          wallet := { user_token := "", cached_balance := 0, transactions := [] } }
        {} AIProvider.XenoCloud).2
      = { configs := {},
          wallet := { user_token := "", cached_balance := 0, transactions := [] } } :=
  (metered_ops_spec.2.2.2.1
      { configs := {},
        wallet := { user_token := "", cached_balance := 0, transactions := [] } }
      {}).1 (by decide)

/-- Behaviour of a modality operation on a provider that is not
credit-metered: no state change, success, zero reported cost. -/
def unmeteredSpec
    (f : AIIntegrationState → AIRequest → AIProvider → AIResponse × AIIntegrationState) :
    Prop :=
  ∀ (s : AIIntegrationState) (request : AIRequest) (provider : AIProvider),
    provider ≠ AIProvider.XenoCloud →
        (f s request provider).2 = s
      ∧ (f s request provider).1.success = true
      ∧ (f s request provider).1.credits_used = 0

/-- Claim C9: on OpenRouter or Ollama every modality operation performs no
credit check and no deduction — the object state, wallet included, is
unchanged — and reports success with credits_used = 0. -/
theorem unmetered_ops_spec :
    unmeteredSpec AIIntegration.generateImage
  ∧ unmeteredSpec AIIntegration.processVideo
  ∧ unmeteredSpec AIIntegration.processAudio
  ∧ unmeteredSpec AIIntegration.completeCode
  ∧ unmeteredSpec AIIntegration.chatCompletion := by
  refine ⟨?_, ?_, ?_, ?_, ?_⟩ <;>
  · intro s request provider h
    simp [AIIntegration.generateImage, AIIntegration.processVideo,
      AIIntegration.processAudio, AIIntegration.completeCode,
      AIIntegration.chatCompletion, h]

/-- Witness for C9: generateImage on OpenRouter from the fresh object. -/
theorem unmetered_ops_spec_witness :
    (AIIntegration.generateImage AIIntegration.mk0 {} AIProvider.OpenRouter).2
        = AIIntegration.mk0
  ∧ (AIIntegration.generateImage AIIntegration.mk0 {} AIProvider.OpenRouter).1.success
        = true
  ∧ (AIIntegration.generateImage AIIntegration.mk0 {} AIProvider.OpenRouter).1.credits_used
        = 0 :=
  unmetered_ops_spec.1 AIIntegration.mk0 {} AIProvider.OpenRouter (by decide)

/-- Claim C10: makeAPICall always succeeds, reports credits_used 1 for
XenoCloud and 0 otherwise, and — unlike the modality operations — leaves
the object state (wallet balance and transaction log) entirely unchanged,
never deducting the cost it reports. -/
theorem makeAPICall_spec {α : Type} (s : AIIntegrationState)
    (provider : AIProvider) (endpoint : String) (payload : α) :
    (AIIntegration.makeAPICall s provider endpoint payload).1.success = true
  ∧ (AIIntegration.makeAPICall s provider endpoint payload).1.credits_used
      = (if provider = AIProvider.XenoCloud then 1 else 0)
  ∧ (AIIntegration.makeAPICall s provider endpoint payload).2 = s :=
  ⟨rfl, rfl, rfl⟩

/-- Witness for C10 at concrete arguments. -/
theorem makeAPICall_spec_witness :
    (AIIntegration.makeAPICall AIIntegration.mk0 AIProvider.XenoCloud "ep" (0 : Int)).1.credits_used
      = (if AIProvider.XenoCloud = AIProvider.XenoCloud then 1 else 0) :=
  (makeAPICall_spec AIIntegration.mk0 AIProvider.XenoCloud "ep" (0 : Int)).2.1

/-- Counterexample for C7: a config whose xeno_ai section is well-formed
but whose open_router section is malformed makes loadConfigFromFile return
false while the provider-configuration map has already been mutated
(XenoCloud got configured), so failure is not mutation-free. -/
theorem loadConfigFromFile_counterexample :
    (AIIntegration.loadConfigFromFile AIIntegration.mk0
        (ConfigSource.parsed
          { xeno_ai := SectionParse.ok "https://api.xenolabs.ai" "k1"
            open_router := SectionParse.malformed
            ollama := SectionParse.absent })).1 = false
  ∧ (AIIntegration.loadConfigFromFile AIIntegration.mk0
        (ConfigSource.parsed
          { xeno_ai := SectionParse.ok "https://api.xenolabs.ai" "k1"
            open_router := SectionParse.malformed
            ollama := SectionParse.absent })).2.configs
      ≠ AIIntegration.mk0.configs := by
  decide

/-- Claim C7 (amended): loadConfigFromFile returns false exactly when the
file cannot be opened, top-level parsing fails, or a present provider
section is malformed; open/parse failures leave the configuration map
unchanged and a missing section is skipped without touching that
provider's entry, but a malformed later section keeps the sections already
processed configured (mutation can be partial). -/
theorem loadConfigFromFile_spec (s : AIIntegrationState) :
    AIIntegration.loadConfigFromFile s ConfigSource.unopenable = (false, s)
  ∧ AIIntegration.loadConfigFromFile s ConfigSource.parseError = (false, s)
  ∧ (∀ config : ConfigFile,
      ((AIIntegration.loadConfigFromFile s (ConfigSource.parsed config)).1 = false
        ↔ (config.xeno_ai = SectionParse.malformed
            ∨ config.open_router = SectionParse.malformed
            ∨ config.ollama = SectionParse.malformed)))
  ∧ (∀ config : ConfigFile, config.xeno_ai = SectionParse.absent →
        (AIIntegration.loadConfigFromFile s (ConfigSource.parsed config)).2.configs.xeno
          = s.configs.xeno)
  ∧ (∀ config : ConfigFile, config.open_router = SectionParse.absent →
        (AIIntegration.loadConfigFromFile s (ConfigSource.parsed config)).2.configs.openRouter
          = s.configs.openRouter)
  ∧ (∀ config : ConfigFile, config.ollama = SectionParse.absent →
        (AIIntegration.loadConfigFromFile s (ConfigSource.parsed config)).2.configs.ollama
          = s.configs.ollama)
  ∧ (∀ (config : ConfigFile) (e key : String),
        config.xeno_ai = SectionParse.ok e key →
        config.open_router = SectionParse.malformed →
          (AIIntegration.loadConfigFromFile s (ConfigSource.parsed config)).1 = false
        ∧ (AIIntegration.loadConfigFromFile s (ConfigSource.parsed config)).2.configs.xeno
            = some { endpoint := e, api_key := key,
                     headers := [("Authorization", "Bearer " ++ key)] }) := by
  refine ⟨rfl, rfl, ?_, ?_, ?_, ?_, ?_⟩
  · rintro ⟨x, r, o⟩
    cases x <;> cases r <;> cases o <;>
      simp [AIIntegration.loadConfigFromFile, AIIntegration.stepKeyedSection,
        AIIntegration.stepOllamaSection, AIIntegration.configure, ConfigMap.set]
  · rintro ⟨x, r, o⟩ hx
    simp only at hx
    subst hx
    cases r <;> cases o <;>
      simp [AIIntegration.loadConfigFromFile, AIIntegration.stepKeyedSection,
        AIIntegration.stepOllamaSection, AIIntegration.configure, ConfigMap.set]
  · rintro ⟨x, r, o⟩ hr
    simp only at hr
    subst hr
    cases x <;> cases o <;>
      simp [AIIntegration.loadConfigFromFile, AIIntegration.stepKeyedSection,
        AIIntegration.stepOllamaSection, AIIntegration.configure, ConfigMap.set]
  · rintro ⟨x, r, o⟩ ho
    simp only at ho
    subst ho
    cases x <;> cases r <;>
      simp [AIIntegration.loadConfigFromFile, AIIntegration.stepKeyedSection,
        AIIntegration.stepOllamaSection, AIIntegration.configure, ConfigMap.set]
  · rintro ⟨x, r, o⟩ e key hx hr
    simp only at hx hr
    subst hx
    subst hr
    simp [AIIntegration.loadConfigFromFile, AIIntegration.stepKeyedSection,
      AIIntegration.stepOllamaSection, AIIntegration.configure, ConfigMap.set]

/-- Witness for C7: an unopenable file fails and leaves the fresh object
unchanged, and a parsed file with a malformed ollama section is rejected. -/
theorem loadConfigFromFile_spec_witness :
    AIIntegration.loadConfigFromFile AIIntegration.mk0 ConfigSource.unopenable
      = (false, AIIntegration.mk0)
  ∧ ((AIIntegration.loadConfigFromFile AIIntegration.mk0
        (ConfigSource.parsed
          { xeno_ai := SectionParse.absent
            open_router := SectionParse.absent
            ollama := SectionParse.malformed })).1 = false
      ↔ ((SectionParse.absent = SectionParse.malformed
          ∨ SectionParse.absent = SectionParse.malformed
          ∨ SectionParse.malformed = SectionParse.malformed))) :=
  ⟨(loadConfigFromFile_spec AIIntegration.mk0).1,
   (loadConfigFromFile_spec AIIntegration.mk0).2.2.1
      { xeno_ai := SectionParse.absent
        open_router := SectionParse.absent
        ollama := SectionParse.malformed }⟩
